import Mathlib

/-!
Verification of the squat-simulator calculation module
(squatSimulatorCalculations.js) against its specification.

The JavaScript module is embedded shallowly over the real numbers:
`Math.sin`, `Math.cos`, `Math.asin` become `Real.sin`, `Real.cos`,
`Real.arcsin`; the nullable drag-snapshot arguments become `Option ℝ`
resolved with `Option.getD` (mirroring `v !== null ? v : default`);
the 30-iteration bisection `for` loop with `break` becomes a
fuel-indexed recursion.  Division follows Lean's convention `x / 0 = 0`.
-/

open Real

/-- The six scalar parameters of the model (squatSimulatorCalculations.js). -/
structure Parameters where
  thighAngle : ℝ
  shinAngle : ℝ
  torsoLength : ℝ
  femurLength : ℝ
  shinLength : ℝ
  feetLength : ℝ

/-- The derived session constants produced by `calculateInitialValues`;
the inverse solver reads `phi`, `H0`, `T0`, `S0` and `R_shin` from it. -/
structure InitialValues where
  psi0 : ℝ
  phi : ℝ
  theta0 : ℝ
  H0 : ℝ
  T0 : ℝ
  S0 : ℝ
  R_shin : ℝ

/-- A 2-D point in math coordinates (y upward). -/
structure Point where
  x : ℝ
  y : ℝ

/-- The joint chain returned by `calculateAnglesAndJoints`. -/
structure Joints where
  ankle : Point
  knee : Point
  hip : Point
  torsoTop : Point

/-- The full derived state returned by `calculateAnglesAndJoints`. -/
structure DerivedState where
  phi : ℝ
  psi : ℝ
  thetaRadRaw : ℝ
  torsoAngleDeg : ℝ
  shoulderHeight : ℝ
  TS_ratio : ℝ
  angleRatio : ℝ
  joints : Joints

/-- The frame record returned by `calculateAnimationFrame`. -/
structure AnimationFrame where
  isComplete : Bool
  currentThighAngle : ℝ
  currentShinAngle : ℝ

/-- Embeds `phi = parameters.thighAngle * Math.PI / 180` (line 133). -/
noncomputable def phiOf (p : Parameters) : ℝ := p.thighAngle * π / 180

/-- Embeds `psi = -parameters.shinAngle * Math.PI / 180` (line 134). -/
noncomputable def psiOf (p : Parameters) : ℝ := -p.shinAngle * π / 180

/-- The balance-equation ratio of `calculateAnglesAndJoints` (lines 135-139). -/
noncomputable def balanceRatio (p : Parameters) : ℝ :=
  (-p.feetLength / 2 - p.shinLength * Real.sin (psiOf p) -
    p.femurLength * Real.sin (phiOf p)) / p.torsoLength

/-- Embeds `Math.max(-1, Math.min(1, ratio))`: the clamped asin argument (line 140). -/
noncomputable def clampedRatio (p : Parameters) : ℝ :=
  max (-1) (min 1 (balanceRatio p))

/-- Embeds `thetaRadRaw = Math.asin(clamped ratio)` (line 140). -/
noncomputable def thetaRadRawOf (p : Parameters) : ℝ := Real.arcsin (clampedRatio p)

/-- Embeds `torsoAngleDeg = Math.abs(thetaRadRaw * (180/Math.PI))` (line 142). -/
noncomputable def torsoAngleDegOf (p : Parameters) : ℝ :=
  |thetaRadRawOf p * (180 / π)|

/-- Embeds `calculateAnglesAndJoints` (lines 132-167): forward kinematics from
the current parameters to derived angles, ratios and joint positions. -/
noncomputable def calculateAnglesAndJoints (p : Parameters) : DerivedState :=
  let phi := phiOf p
  let psi := psiOf p
  let thetaRadRaw := thetaRadRawOf p
  let torsoAngleDeg := torsoAngleDegOf p
  let shoulderHeight := p.shinLength + p.femurLength + p.torsoLength
  let TS_r := p.torsoLength / p.shinLength
  let angleRatio := if torsoAngleDeg ≠ 0 then p.shinAngle / torsoAngleDeg else 0
  let ankle : Point := ⟨0, 0⟩
  let knee : Point := ⟨p.shinLength * Real.sin psi, p.shinLength * Real.cos psi⟩
  let hip : Point := ⟨knee.x + p.femurLength * Real.sin phi,
                      knee.y + p.femurLength * Real.cos phi⟩
  let torsoTop : Point := ⟨hip.x + p.torsoLength * Real.sin thetaRadRaw,
                           hip.y + p.torsoLength * Real.cos thetaRadRaw⟩
  ⟨phi, psi, thetaRadRaw, torsoAngleDeg, shoulderHeight, TS_r, angleRatio,
    ⟨ankle, knee, hip, torsoTop⟩⟩

/-- Embeds `toSVGCoords` (lines 170-173): flip y about the constant 1.5. -/
noncomputable def toSVGCoords (point : Point) : Point := ⟨point.x, 1.5 - point.y⟩

/-- Euclidean length of the segment from `a` to `b`. -/
noncomputable def segLen (a b : Point) : ℝ :=
  Real.sqrt ((b.x - a.x) ^ 2 + (b.y - a.y) ^ 2)

/-- Resolution of the nullable `femurDragRatio` (line 42). -/
def resolveR (o : Option ℝ) (iv : InitialValues) : ℝ := o.getD iv.R_shin

/-- Resolution of the nullable `femurDragTSRatio` (line 43). -/
noncomputable def resolveTS (o : Option ℝ) (iv : InitialValues) : ℝ :=
  o.getD (iv.T0 / iv.S0)

/-- Resolution of the nullable `femurDragShoulderHeight` (line 44). -/
def resolveH (o : Option ℝ) (iv : InitialValues) : ℝ := o.getD iv.H0

/-- Embeds `newShin = (H_fixed - newFemur) / (1 + TS_fixed)` (line 48). -/
noncomputable def newShinOf (newFemur : ℝ) (iv : InitialValues)
    (tsOpt hOpt : Option ℝ) : ℝ :=
  (resolveH hOpt iv - newFemur) / (1 + resolveTS tsOpt iv)

/-- Embeds `newTorso = TS_fixed * newShin` (line 49). -/
noncomputable def newTorsoOf (newFemur : ℝ) (iv : InitialValues)
    (tsOpt hOpt : Option ℝ) : ℝ :=
  resolveTS tsOpt iv * newShinOf newFemur iv tsOpt hOpt

/-- The root function `f` of the inverse solver (lines 55-60). -/
noncomputable def femurF (newShin newTorso newFemur phi feetLength R_fixed
    x_deg : ℝ) : ℝ :=
  newShin * Real.sin (R_fixed * x_deg * π / 180) +
    newTorso * Real.sin (x_deg * π / 180) -
    newFemur * Real.sin phi - feetLength / 2

/-- The bisection `for` loop of `calculateFemurLengthUpdate` (lines 62-74),
with the remaining iteration count as fuel.  Each iteration sets
`x = (low+high)/2`, breaks when `|f x| < 1e-6`, and otherwise keeps the
half-bracket chosen by the sign of `f low * f x`.  The result is the
final `(low, high, x_deg)`. -/
noncomputable def bisectLoop (f : ℝ → ℝ) : ℕ → ℝ → ℝ → ℝ → ℝ × ℝ × ℝ
  | 0, low, high, x => (low, high, x)
  | n + 1, low, high, _ =>
      let m := (low + high) / 2
      let fm := f m
      if |fm| < 1e-6 then (low, high, m)
      else if f low * fm < 0 then bisectLoop f n low m m
      else bisectLoop f n m high m

/-- Embeds `calculateFemurLengthUpdate` (lines 32-77): given a new femur length,
the current parameters, the session constants and the (nullable) drag
snapshot, recompute `(newShin, newTorso, newShinAngle)`. -/
noncomputable def calculateFemurLengthUpdate (newFemur : ℝ) (parameters : Parameters)
    (initialValues : InitialValues) (femurDragRatio femurDragTSRatio
    femurDragShoulderHeight : Option ℝ) : ℝ × ℝ × ℝ :=
  let R_fixed := resolveR femurDragRatio initialValues
  let newShin := newShinOf newFemur initialValues femurDragTSRatio femurDragShoulderHeight
  let newTorso := newTorsoOf newFemur initialValues femurDragTSRatio femurDragShoulderHeight
  let f := femurF newShin newTorso newFemur initialValues.phi parameters.feetLength R_fixed
  let r := bisectLoop f 30 0 90 0
  (newShin, newTorso, R_fixed * r.2.2)

/-- The local closure `f` built by `calculateFemurLengthUpdate` (lines 55-60),
with its captured values resolved from the same inputs. -/
noncomputable def solverF (newFemur : ℝ) (parameters : Parameters)
    (initialValues : InitialValues) (femurDragRatio femurDragTSRatio
    femurDragShoulderHeight : Option ℝ) : ℝ → ℝ :=
  femurF (newShinOf newFemur initialValues femurDragTSRatio femurDragShoulderHeight)
    (newTorsoOf newFemur initialValues femurDragTSRatio femurDragShoulderHeight)
    newFemur initialValues.phi parameters.feetLength
    (resolveR femurDragRatio initialValues)

/-- Embeds `calculateSmoothProgress` (lines 80-86): `(1 - cos(2*pi*t)) / 2`. -/
noncomputable def calculateSmoothProgress (t : ℝ) : ℝ :=
  (1 - Real.cos (t * 2 * π)) / 2

/-- JavaScript `Math.trunc`-style rounding toward zero, used to model `%`. -/
noncomputable def jsTrunc (y : ℝ) : ℝ := if 0 ≤ y then (⌊y⌋ : ℤ) else (⌈y⌉ : ℤ)

/-- The JavaScript remainder operator `x % d` (sign follows the dividend). -/
noncomputable def jsMod (x d : ℝ) : ℝ := x - d * jsTrunc (x / d)

/-- Embeds `calculateAnimationFrame` (lines 89-129).  The two standing angles are
the JavaScript default parameters (0 at every call site of interest). -/
noncomputable def calculateAnimationFrame (currentTime startTime duration cycles
    squattedThighAngle squattedShinAngle standingThighAngle
    standingShinAngle : ℝ) : AnimationFrame :=
  let totalDuration := duration * cycles
  let progress := currentTime / totalDuration
  if progress ≥ 1 then
    ⟨true, squattedThighAngle, squattedShinAngle⟩
  else
    let cycleProgress := jsMod currentTime duration / duration
    let smoothProgress := calculateSmoothProgress cycleProgress
    let thighAngleRange := squattedThighAngle - standingThighAngle
    let shinAngleRange := squattedShinAngle - standingShinAngle
    ⟨false, squattedThighAngle - thighAngleRange * smoothProgress,
      squattedShinAngle - shinAngleRange * smoothProgress⟩

/-! ### Helper lemmas -/

lemma calcFemur_fst (newFemur : ℝ) (p : Parameters) (iv : InitialValues)
    (rOpt tsOpt hOpt : Option ℝ) :
    (calculateFemurLengthUpdate newFemur p iv rOpt tsOpt hOpt).1 =
      newShinOf newFemur iv tsOpt hOpt := rfl

lemma calcFemur_snd (newFemur : ℝ) (p : Parameters) (iv : InitialValues)
    (rOpt tsOpt hOpt : Option ℝ) :
    (calculateFemurLengthUpdate newFemur p iv rOpt tsOpt hOpt).2.1 =
      newTorsoOf newFemur iv tsOpt hOpt := rfl

lemma calcFemur_angle (newFemur : ℝ) (p : Parameters) (iv : InitialValues)
    (rOpt tsOpt hOpt : Option ℝ) :
    (calculateFemurLengthUpdate newFemur p iv rOpt tsOpt hOpt).2.2 =
      resolveR rOpt iv *
        (bisectLoop
          (femurF (newShinOf newFemur iv tsOpt hOpt) (newTorsoOf newFemur iv tsOpt hOpt)
            newFemur iv.phi p.feetLength (resolveR rOpt iv)) 30 0 90 0).2.2 := rfl

lemma pi_half_deg : π / 2 * (180 / π) = 90 := by
  field_simp
  ring

/-! ### C7: shoulder height -/

/-- C7: `shoulderHeight` equals `shinLength + femurLength + torsoLength` and
depends only on those three lengths: two parameter records sharing them
(whatever their angle fields and `feetLength`) yield the same value. -/
theorem C7_shoulder_height (p : Parameters) :
    (calculateAnglesAndJoints p).shoulderHeight =
      p.shinLength + p.femurLength + p.torsoLength ∧
    ∀ q : Parameters, q.torsoLength = p.torsoLength → q.femurLength = p.femurLength →
      q.shinLength = p.shinLength →
      (calculateAnglesAndJoints q).shoulderHeight =
        (calculateAnglesAndJoints p).shoulderHeight := by
  refine ⟨rfl, fun q h1 h2 h3 => ?_⟩
  show q.shinLength + q.femurLength + q.torsoLength =
    p.shinLength + p.femurLength + p.torsoLength
  rw [h1, h2, h3]

/-- Witness for C7 at the module's default parameters and an angle-varied copy. -/
theorem C7_shoulder_height_witness :
    (calculateAnglesAndJoints ⟨90, 45, 0.5, 0.48, 0.41, 0.24⟩).shoulderHeight =
      0.41 + 0.48 + 0.5 ∧
    (calculateAnglesAndJoints ⟨0, 0, 0.5, 0.48, 0.41, 0⟩).shoulderHeight =
      (calculateAnglesAndJoints ⟨90, 45, 0.5, 0.48, 0.41, 0.24⟩).shoulderHeight :=
  ⟨(C7_shoulder_height ⟨90, 45, 0.5, 0.48, 0.41, 0.24⟩).1,
    (C7_shoulder_height ⟨90, 45, 0.5, 0.48, 0.41, 0.24⟩).2 ⟨0, 0, 0.5, 0.48, 0.41, 0⟩
      rfl rfl rfl⟩

/-! ### C8: division-by-zero guard on the angle ratio -/

/-- C8: `angleRatio` is 0 when the derived `torsoAngleDeg` is 0, and is
exactly `shinAngle / torsoAngleDeg` otherwise. -/
theorem C8_angle_ratio_guard (p : Parameters) :
    (torsoAngleDegOf p = 0 → (calculateAnglesAndJoints p).angleRatio = 0) ∧
    (torsoAngleDegOf p ≠ 0 →
      (calculateAnglesAndJoints p).angleRatio = p.shinAngle / torsoAngleDegOf p) := by
  constructor
  · intro h
    show (if torsoAngleDegOf p ≠ 0 then p.shinAngle / torsoAngleDegOf p else 0) = 0
    simp [h]
  · intro h
    show (if torsoAngleDegOf p ≠ 0 then p.shinAngle / torsoAngleDegOf p else 0) = _
    simp [h]

/-- Witness for C8: at `⟨0,0,1,1,1,0⟩` the derived back angle is 0 and the
ratio falls back to 0; at `⟨90,0,1,1,1,0⟩` it is 90 and the quotient is taken. -/
theorem C8_angle_ratio_guard_witness :
    (calculateAnglesAndJoints ⟨0, 0, 1, 1, 1, 0⟩).angleRatio = 0 ∧
    (calculateAnglesAndJoints ⟨90, 0, 1, 1, 1, 0⟩).angleRatio =
      (0 : ℝ) / torsoAngleDegOf ⟨90, 0, 1, 1, 1, 0⟩ := by
  have h0 : torsoAngleDegOf ⟨0, 0, 1, 1, 1, 0⟩ = 0 := by
    simp [torsoAngleDegOf, thetaRadRawOf, clampedRatio, balanceRatio, psiOf, phiOf]
  have h90 : torsoAngleDegOf ⟨90, 0, 1, 1, 1, 0⟩ = 90 := by
    have harg : (90 : ℝ) * π / 180 = π / 2 := by ring
    have hratio : balanceRatio ⟨90, 0, 1, 1, 1, 0⟩ = -1 := by
      simp [balanceRatio, psiOf, phiOf, harg]
    have hclamp : clampedRatio ⟨90, 0, 1, 1, 1, 0⟩ = -1 := by
      simp [clampedRatio, hratio]
    simp [torsoAngleDegOf, thetaRadRawOf, hclamp, Real.arcsin_neg_one]
    rw [abs_of_nonneg (by positivity : (0:ℝ) ≤ π / 2 * (180 / π)), pi_half_deg]
  exact ⟨(C8_angle_ratio_guard ⟨0, 0, 1, 1, 1, 0⟩).1 h0,
    (C8_angle_ratio_guard ⟨90, 0, 1, 1, 1, 0⟩).2 (by rw [h90]; norm_num)⟩

/-! ### C6: torso-to-shin ratio conservation -/

/-- C6: whenever the returned `newShin` is nonzero, `newTorso / newShin`
equals the resolved `TS_fixed` (snapshot value, else `T0 / S0`). -/
theorem C6_ratio_conservation (newFemur : ℝ) (p : Parameters) (iv : InitialValues)
    (rOpt tsOpt hOpt : Option ℝ)
    (h : (calculateFemurLengthUpdate newFemur p iv rOpt tsOpt hOpt).1 ≠ 0) :
    (calculateFemurLengthUpdate newFemur p iv rOpt tsOpt hOpt).2.1 /
      (calculateFemurLengthUpdate newFemur p iv rOpt tsOpt hOpt).1 =
      resolveTS tsOpt iv := by
  rw [calcFemur_fst] at h
  rw [calcFemur_fst, calcFemur_snd, newTorsoOf]
  exact mul_div_cancel_right₀ _ h

/-- Witness for C6 at `newFemur = 1`, snapshot `(1, 1, 3)`: `newShin = 1`,
`newTorso = 1`, ratio `1`. -/
theorem C6_ratio_conservation_witness :
    (calculateFemurLengthUpdate 1 ⟨0, 0, 0, 0, 0, 0⟩ ⟨0, 0, 0, 0, 0, 0, 0⟩
        (some 1) (some 1) (some 3)).2.1 /
      (calculateFemurLengthUpdate 1 ⟨0, 0, 0, 0, 0, 0⟩ ⟨0, 0, 0, 0, 0, 0, 0⟩
        (some 1) (some 1) (some 3)).1 = 1 := by
  have h : (calculateFemurLengthUpdate 1 ⟨0, 0, 0, 0, 0, 0⟩ ⟨0, 0, 0, 0, 0, 0, 0⟩
      (some 1) (some 1) (some 3)).1 ≠ 0 := by
    rw [calcFemur_fst]
    simp [newShinOf, resolveTS, resolveH]
    norm_num
  have := C6_ratio_conservation 1 ⟨0, 0, 0, 0, 0, 0⟩ ⟨0, 0, 0, 0, 0, 0, 0⟩
    (some 1) (some 1) (some 3) h
  simpa [resolveTS] using this

/-! ### C3: height conservation under a femur-length edit -/

/-- Counterexample to C3 as stated for every input: with the snapshot
`tsRatio = -1` (so `1 + TS_fixed = 0`), `shoulderHeight = 1` and
`newFemur = 0`, the returned sum is 0, not the fixed height 1. -/
theorem C3_counterexample :
    ¬ ((calculateFemurLengthUpdate 0 ⟨0, 0, 0, 0, 0, 0⟩ ⟨0, 0, 0, 0, 0, 0, 0⟩
          (some 1) (some (-1)) (some 1)).1 + 0 +
        (calculateFemurLengthUpdate 0 ⟨0, 0, 0, 0, 0, 0⟩ ⟨0, 0, 0, 0, 0, 0, 0⟩
          (some 1) (some (-1)) (some 1)).2.1 =
        resolveH (some 1) ⟨0, 0, 0, 0, 0, 0, 0⟩) := by
  rw [calcFemur_fst, calcFemur_snd]
  simp [newShinOf, newTorsoOf, resolveTS, resolveH]

/-- C3 amended: for every input with `1 + TS_fixed ≠ 0`, the returned values
satisfy `newShin + newFemur + newTorso = H_fixed` exactly. -/
theorem C3_height_conservation (newFemur : ℝ) (p : Parameters) (iv : InitialValues)
    (rOpt tsOpt hOpt : Option ℝ) (h : 1 + resolveTS tsOpt iv ≠ 0) :
    (calculateFemurLengthUpdate newFemur p iv rOpt tsOpt hOpt).1 + newFemur +
      (calculateFemurLengthUpdate newFemur p iv rOpt tsOpt hOpt).2.1 =
    resolveH hOpt iv := by
  rw [calcFemur_fst, calcFemur_snd, newTorsoOf, newShinOf]
  field_simp
  ring

/-- Witness for C3 at `newFemur = 1`, snapshot `(1, 1, 3)`: `1 + 1 + 1 = 3`. -/
theorem C3_height_conservation_witness :
    (calculateFemurLengthUpdate 1 ⟨0, 0, 0, 0, 0, 0⟩ ⟨0, 0, 0, 0, 0, 0, 0⟩
        (some 1) (some 1) (some 3)).1 + 1 +
      (calculateFemurLengthUpdate 1 ⟨0, 0, 0, 0, 0, 0⟩ ⟨0, 0, 0, 0, 0, 0, 0⟩
        (some 1) (some 1) (some 3)).2.1 =
    resolveH (some 3) ⟨0, 0, 0, 0, 0, 0, 0⟩ :=
  C3_height_conservation 1 ⟨0, 0, 0, 0, 0, 0⟩ ⟨0, 0, 0, 0, 0, 0, 0⟩
    (some 1) (some 1) (some 3) (by simp [resolveTS])

/-! ### C10: no positivity check on the solver's outputs -/

/-- C10: with `TS_fixed > -1` and `newFemur > H_fixed` the returned
`newShin` is strictly negative, and so is `newTorso` when moreover
`TS_fixed > 0`: the solver performs no positivity check. -/
theorem C10_negative_lengths (newFemur : ℝ) (p : Parameters) (iv : InitialValues)
    (rOpt tsOpt hOpt : Option ℝ) (h1 : -1 < resolveTS tsOpt iv)
    (h2 : resolveH hOpt iv < newFemur) :
    (calculateFemurLengthUpdate newFemur p iv rOpt tsOpt hOpt).1 < 0 ∧
    (0 < resolveTS tsOpt iv →
      (calculateFemurLengthUpdate newFemur p iv rOpt tsOpt hOpt).2.1 < 0) := by
  have hs : newShinOf newFemur iv tsOpt hOpt < 0 := by
    unfold newShinOf
    apply div_neg_of_neg_of_pos <;> linarith
  refine ⟨by rw [calcFemur_fst]; exact hs, fun hts => ?_⟩
  rw [calcFemur_snd, newTorsoOf]
  exact mul_neg_of_pos_of_neg hts hs

/-- Witness for C10 with snapshot `(1, 1, 1)` and `newFemur = 2`:
both returned lengths are `-1/2 < 0`. -/
theorem C10_negative_lengths_witness :
    (calculateFemurLengthUpdate 2 ⟨0, 0, 0, 0, 0, 0⟩ ⟨0, 0, 0, 0, 0, 0, 0⟩
        (some 1) (some 1) (some 1)).1 < 0 ∧
    (calculateFemurLengthUpdate 2 ⟨0, 0, 0, 0, 0, 0⟩ ⟨0, 0, 0, 0, 0, 0, 0⟩
        (some 1) (some 1) (some 1)).2.1 < 0 := by
  have := C10_negative_lengths 2 ⟨0, 0, 0, 0, 0, 0⟩ ⟨0, 0, 0, 0, 0, 0, 0⟩
    (some 1) (some 1) (some 1)
    (by simp [resolveTS]) (by simp [resolveH])
  exact ⟨this.1, this.2 (by simp [resolveTS])⟩

/-! ### C4: clamping of the balance ratio -/

/-- C4: the asin argument is always clamped into `[-1, 1]`, and whenever the
balance ratio leaves `[-1, 1]` (torso length nonzero) the derived
`torsoAngleDeg` saturates at exactly 90 degrees. -/
theorem C4_clamp_saturation (p : Parameters) :
    (-1 ≤ clampedRatio p ∧ clampedRatio p ≤ 1) ∧
    (p.torsoLength ≠ 0 → 1 < |balanceRatio p| →
      (calculateAnglesAndJoints p).torsoAngleDeg = 90) := by
  constructor
  · exact ⟨le_max_left _ _, max_le (by norm_num) (min_le_left _ _)⟩
  · intro _ hr
    show torsoAngleDegOf p = 90
    unfold torsoAngleDegOf thetaRadRawOf clampedRatio
    rcases lt_abs.mp hr with h | h
    · rw [min_eq_left h.le, max_eq_right (by norm_num : (-1 : ℝ) ≤ 1),
        Real.arcsin_one, abs_of_nonneg (by positivity), pi_half_deg]
    · have hlt : balanceRatio p < -1 := by linarith
      rw [min_eq_right (by linarith : balanceRatio p ≤ 1),
        max_eq_left hlt.le, Real.arcsin_neg_one, neg_mul, abs_neg,
        abs_of_nonneg (by positivity), pi_half_deg]

/-- Witness for C4 at `⟨90, 0, 1, 2, 1, 0⟩`, whose balance ratio is `-2`. -/
theorem C4_clamp_saturation_witness :
    (-1 ≤ clampedRatio ⟨90, 0, 1, 2, 1, 0⟩ ∧ clampedRatio ⟨90, 0, 1, 2, 1, 0⟩ ≤ 1) ∧
    (calculateAnglesAndJoints ⟨90, 0, 1, 2, 1, 0⟩).torsoAngleDeg = 90 := by
  have harg : (90 : ℝ) * π / 180 = π / 2 := by ring
  have hval : balanceRatio ⟨90, 0, 1, 2, 1, 0⟩ = -2 := by
    simp [balanceRatio, psiOf, phiOf, harg]
  have hr : 1 < |balanceRatio ⟨90, 0, 1, 2, 1, 0⟩| := by
    rw [hval]
    norm_num
  exact ⟨(C4_clamp_saturation ⟨90, 0, 1, 2, 1, 0⟩).1,
    (C4_clamp_saturation ⟨90, 0, 1, 2, 1, 0⟩).2 (by norm_num) hr⟩

/-! ### C1: geometric identity of the joint chain -/

lemma segLen_polar (L a : ℝ) (hL : 0 ≤ L) :
    Real.sqrt ((L * Real.sin a) ^ 2 + (L * Real.cos a) ^ 2) = L := by
  have h : (L * Real.sin a) ^ 2 + (L * Real.cos a) ^ 2 =
      L ^ 2 * (Real.sin a ^ 2 + Real.cos a ^ 2) := by ring
  rw [h, Real.sin_sq_add_cos_sq, mul_one, Real.sqrt_sq hL]

/-- C1: for positive segment lengths the joint chain of
`calculateAnglesAndJoints` satisfies `|knee - ankle| = shinLength`,
`|hip - knee| = femurLength` and `|torsoTop - hip| = torsoLength` exactly. -/
theorem C1_segment_lengths (p : Parameters) (h1 : 0 < p.shinLength)
    (h2 : 0 < p.femurLength) (h3 : 0 < p.torsoLength) :
    segLen (calculateAnglesAndJoints p).joints.ankle
        (calculateAnglesAndJoints p).joints.knee = p.shinLength ∧
    segLen (calculateAnglesAndJoints p).joints.knee
        (calculateAnglesAndJoints p).joints.hip = p.femurLength ∧
    segLen (calculateAnglesAndJoints p).joints.hip
        (calculateAnglesAndJoints p).joints.torsoTop = p.torsoLength := by
  refine ⟨?_, ?_, ?_⟩
  · show Real.sqrt ((p.shinLength * Real.sin (psiOf p) - 0) ^ 2 +
      (p.shinLength * Real.cos (psiOf p) - 0) ^ 2) = p.shinLength
    simpa using segLen_polar p.shinLength (psiOf p) h1.le
  · show Real.sqrt
      ((p.shinLength * Real.sin (psiOf p) + p.femurLength * Real.sin (phiOf p) -
          p.shinLength * Real.sin (psiOf p)) ^ 2 +
        (p.shinLength * Real.cos (psiOf p) + p.femurLength * Real.cos (phiOf p) -
          p.shinLength * Real.cos (psiOf p)) ^ 2) = p.femurLength
    simpa using segLen_polar p.femurLength (phiOf p) h2.le
  · show Real.sqrt
      ((p.shinLength * Real.sin (psiOf p) + p.femurLength * Real.sin (phiOf p) +
          p.torsoLength * Real.sin (thetaRadRawOf p) -
          (p.shinLength * Real.sin (psiOf p) + p.femurLength * Real.sin (phiOf p))) ^ 2 +
        (p.shinLength * Real.cos (psiOf p) + p.femurLength * Real.cos (phiOf p) +
          p.torsoLength * Real.cos (thetaRadRawOf p) -
          (p.shinLength * Real.cos (psiOf p) + p.femurLength * Real.cos (phiOf p))) ^ 2) =
      p.torsoLength
    simpa using segLen_polar p.torsoLength (thetaRadRawOf p) h3.le

/-- Witness for C1 at the module's default parameters
`⟨90, 45, 0.5, 0.48, 0.41, 0.24⟩`. -/
theorem C1_segment_lengths_witness :
    segLen (calculateAnglesAndJoints ⟨90, 45, 0.5, 0.48, 0.41, 0.24⟩).joints.ankle
        (calculateAnglesAndJoints ⟨90, 45, 0.5, 0.48, 0.41, 0.24⟩).joints.knee = 0.41 ∧
    segLen (calculateAnglesAndJoints ⟨90, 45, 0.5, 0.48, 0.41, 0.24⟩).joints.knee
        (calculateAnglesAndJoints ⟨90, 45, 0.5, 0.48, 0.41, 0.24⟩).joints.hip = 0.48 ∧
    segLen (calculateAnglesAndJoints ⟨90, 45, 0.5, 0.48, 0.41, 0.24⟩).joints.hip
        (calculateAnglesAndJoints ⟨90, 45, 0.5, 0.48, 0.41, 0.24⟩).joints.torsoTop = 0.5 :=
  C1_segment_lengths ⟨90, 45, 0.5, 0.48, 0.41, 0.24⟩
    (show (0 : ℝ) < 0.41 by norm_num) (show (0 : ℝ) < 0.48 by norm_num)
    (show (0 : ℝ) < 0.5 by norm_num)

/-! ### C2: animation boundary behaviour -/

lemma calcAnim_complete (currentTime startTime duration cycles sqT sqS stT stS : ℝ)
    (h : 1 ≤ currentTime / (duration * cycles)) :
    calculateAnimationFrame currentTime startTime duration cycles sqT sqS stT stS =
      ⟨true, sqT, sqS⟩ := by
  simp only [calculateAnimationFrame]
  rw [if_pos h]

lemma calcAnim_running (currentTime startTime duration cycles sqT sqS stT stS : ℝ)
    (h : ¬ 1 ≤ currentTime / (duration * cycles)) :
    calculateAnimationFrame currentTime startTime duration cycles sqT sqS stT stS =
      ⟨false,
        sqT - (sqT - stT) * calculateSmoothProgress (jsMod currentTime duration / duration),
        sqS - (sqS - stS) * calculateSmoothProgress (jsMod currentTime duration / duration)⟩ := by
  simp only [calculateAnimationFrame]
  rw [if_neg h]

lemma jsMod_zero_left (d : ℝ) : jsMod 0 d = 0 := by
  simp [jsMod, jsTrunc]

lemma smoothProgress_zero : calculateSmoothProgress 0 = 0 := by
  simp [calculateSmoothProgress]

/-- Counterexample to C2 as stated: at `currentTime = 0` (duration 1, one
cycle, squat targets 90/45, standing targets 0/0, so progress `0 < 1`) the
returned thigh angle is the squatted 90, not the standing 0. -/
theorem C2_counterexample :
    (calculateAnimationFrame 0 0 1 1 90 45 0 0).currentThighAngle = 90 ∧
    (calculateAnimationFrame 0 0 1 1 90 45 0 0).currentThighAngle ≠ 0 := by
  have h : calculateAnimationFrame 0 0 1 1 90 45 0 0 = ⟨false, 90, 45⟩ := by
    rw [calcAnim_running 0 0 1 1 90 45 0 0 (by norm_num), jsMod_zero_left]
    norm_num [smoothProgress_zero]
  rw [h]
  norm_num

/-- C2 amended: for positive total duration, `currentTime = 0` yields the
running frame pinned at the *squatted* angles (since `smooth(0) = 0` the
interpolation starts from the squat target); `currentTime` at or beyond
`duration * cycles` yields `isComplete = true` with the squatted targets;
and `smooth(1/2) = 1` exactly. -/
theorem C2_animation_boundary :
    (∀ startTime duration cycles sqT sqS stT stS : ℝ, 0 < duration * cycles →
      calculateAnimationFrame 0 startTime duration cycles sqT sqS stT stS =
        ⟨false, sqT, sqS⟩) ∧
    (∀ currentTime startTime duration cycles sqT sqS stT stS : ℝ,
      0 < duration * cycles → duration * cycles ≤ currentTime →
      calculateAnimationFrame currentTime startTime duration cycles sqT sqS stT stS =
        ⟨true, sqT, sqS⟩) ∧
    calculateSmoothProgress (1 / 2) = 1 := by
  refine ⟨fun startTime duration cycles sqT sqS stT stS h => ?_,
    fun currentTime startTime duration cycles sqT sqS stT stS h1 h2 => ?_, ?_⟩
  · rw [calcAnim_running 0 startTime duration cycles sqT sqS stT stS
      (by rw [zero_div]; norm_num), jsMod_zero_left]
    rw [zero_div, smoothProgress_zero]
    norm_num
  · exact calcAnim_complete currentTime startTime duration cycles sqT sqS stT stS
      ((one_le_div h1).mpr h2)
  · unfold calculateSmoothProgress
    rw [show (1 / 2 : ℝ) * 2 * π = π by ring, Real.cos_pi]
    norm_num

/-- Witness for C2: the amended boundary behaviour at duration 1, one cycle,
squat targets 90/45. -/
theorem C2_animation_boundary_witness :
    calculateAnimationFrame 0 0 1 1 90 45 0 0 = ⟨false, 90, 45⟩ ∧
    calculateAnimationFrame 2 0 1 1 90 45 0 0 = ⟨true, 90, 45⟩ ∧
    calculateSmoothProgress (1 / 2) = 1 :=
  ⟨C2_animation_boundary.1 0 1 1 90 45 0 0 (by norm_num),
    C2_animation_boundary.2.1 2 0 1 1 90 45 0 0 (by norm_num) (by norm_num),
    C2_animation_boundary.2.2⟩

/-! ### Bisection loop lemmas (for C5 and C9) -/

lemma sign_transfer {a b c : ℝ} (hac : a * c < 0) (hab : ¬ a * b < 0) (hb : b ≠ 0) :
    b * c < 0 := by
  rcases mul_neg_iff.mp hac with ⟨ha, hc⟩ | ⟨ha, hc⟩
  · have hb' : 0 < b := by
      rcases hb.lt_or_lt with h | h
      · exact absurd (mul_neg_of_pos_of_neg ha h) hab
      · exact h
    exact mul_neg_of_pos_of_neg hb' hc
  · have hb' : b < 0 := by
      rcases hb.lt_or_lt with h | h
      · exact h
      · exact absurd (mul_neg_of_neg_of_pos ha h) hab
    exact mul_neg_of_neg_of_pos hb' hc

lemma bisectLoop_bounds (f : ℝ → ℝ) (n : ℕ) :
    ∀ (low high x : ℝ), low < high → low ≤ x → x ≤ high →
      low ≤ (bisectLoop f n low high x).1 ∧
      (bisectLoop f n low high x).1 < (bisectLoop f n low high x).2.1 ∧
      (bisectLoop f n low high x).2.1 ≤ high ∧
      low ≤ (bisectLoop f n low high x).2.2 ∧
      (bisectLoop f n low high x).2.2 ≤ high := by
  induction n with
  | zero =>
      intro low high x h hx1 hx2
      simp only [bisectLoop]
      exact ⟨le_refl _, h, le_refl _, hx1, hx2⟩
  | succ n ih =>
      intro low high x h hx1 hx2
      have hm1 : low < (low + high) / 2 := by linarith
      have hm2 : (low + high) / 2 < high := by linarith
      simp only [bisectLoop]
      split_ifs with h1 h2
      · exact ⟨le_refl _, h, le_refl _, hm1.le, hm2.le⟩
      · have hrec := ih low ((low + high) / 2) ((low + high) / 2) hm1 hm1.le (le_refl _)
        exact ⟨hrec.1, hrec.2.1, hrec.2.2.1.trans hm2.le, hrec.2.2.2.1,
          hrec.2.2.2.2.trans hm2.le⟩
      · have hrec := ih ((low + high) / 2) high ((low + high) / 2) hm2 (le_refl _) hm2.le
        exact ⟨hm1.le.trans hrec.1, hrec.2.1, hrec.2.2.1, hm1.le.trans hrec.2.2.2.1,
          hrec.2.2.2.2⟩


lemma bisectLoop_zero (f : ℝ → ℝ) (low high x : ℝ) :
    bisectLoop f 0 low high x = (low, high, x) := by
  simp only [bisectLoop]

lemma bisectLoop_succ (f : ℝ → ℝ) (n : ℕ) (low high x : ℝ) :
    bisectLoop f (n + 1) low high x =
      if |f ((low + high) / 2)| < 1e-6 then (low, high, (low + high) / 2)
      else if f low * f ((low + high) / 2) < 0 then
        bisectLoop f n low ((low + high) / 2) ((low + high) / 2)
      else bisectLoop f n ((low + high) / 2) high ((low + high) / 2) := by
  conv_lhs => rw [bisectLoop]

lemma bisectLoop_bracket (f : ℝ → ℝ) (n : ℕ) :
    ∀ (low high x : ℝ), low < high → f low * f high < 0 →
      |f (bisectLoop f (n + 1) low high x).2.2| < 1e-6 ∨
      ((bisectLoop f (n + 1) low high x).2.1 - (bisectLoop f (n + 1) low high x).1 =
          (high - low) / 2 ^ (n + 1) ∧
        ((bisectLoop f (n + 1) low high x).2.2 = (bisectLoop f (n + 1) low high x).1 ∨
          (bisectLoop f (n + 1) low high x).2.2 = (bisectLoop f (n + 1) low high x).2.1) ∧
        f (bisectLoop f (n + 1) low high x).1 *
          f (bisectLoop f (n + 1) low high x).2.1 < 0) := by
  induction n with
  | zero =>
      intro low high x h hsign
      rw [bisectLoop_succ]
      split_ifs with h1 h2
      · exact Or.inl h1
      · rw [bisectLoop_zero]
        refine Or.inr ⟨?_, Or.inr rfl, h2⟩
        rw [zero_add, pow_one]
        show (low + high) / 2 - low = (high - low) / 2
        ring
      · have hm : f ((low + high) / 2) ≠ 0 := by
          intro h0
          exact h1 (by rw [h0]; norm_num)
        rw [bisectLoop_zero]
        refine Or.inr ⟨?_, Or.inl rfl, sign_transfer hsign h2 hm⟩
        rw [zero_add, pow_one]
        show high - (low + high) / 2 = (high - low) / 2
        ring
  | succ n ih =>
      intro low high x h hsign
      have hm1 : low < (low + high) / 2 := by linarith
      have hm2 : (low + high) / 2 < high := by linarith
      rw [bisectLoop_succ]
      split_ifs with h1 h2
      · exact Or.inl h1
      · rcases ih low ((low + high) / 2) ((low + high) / 2) hm1 h2 with hl | ⟨hw, hx, hs⟩
        · exact Or.inl hl
        · refine Or.inr ⟨?_, hx, hs⟩
          rw [hw, show (low + high) / 2 - low = (high - low) / 2 by ring,
            div_div, ← pow_succ']
      · have hm : f ((low + high) / 2) ≠ 0 := by
          intro h0
          exact h1 (by rw [h0]; norm_num)
        have hsign2 : f ((low + high) / 2) * f high < 0 := sign_transfer hsign h2 hm
        rcases ih ((low + high) / 2) high ((low + high) / 2) hm2 hsign2 with hl | ⟨hw, hx, hs⟩
        · exact Or.inl hl
        · refine Or.inr ⟨?_, hx, hs⟩
          rw [hw, show high - (low + high) / 2 = (high - low) / 2 by ring,
            div_div, ← pow_succ']

/-! ### C9: unconditional safety of the bisection loop -/

/-- C9: for every input (bracket valid or not) the loop state satisfies
`0 ≤ low < high ≤ 90` after any number of iterations, the tracked midpoint
stays in `[0, 90]`, and for `R_fixed ≥ 0` the returned
`newShinAngle = R_fixed * x_deg` lies between 0 and `90 * R_fixed`. -/
theorem C9_bracket_invariant (newFemur : ℝ) (p : Parameters) (iv : InitialValues)
    (rOpt tsOpt hOpt : Option ℝ) :
    (∀ n : ℕ,
      0 ≤ (bisectLoop (solverF newFemur p iv rOpt tsOpt hOpt) n 0 90 0).1 ∧
      (bisectLoop (solverF newFemur p iv rOpt tsOpt hOpt) n 0 90 0).1 <
        (bisectLoop (solverF newFemur p iv rOpt tsOpt hOpt) n 0 90 0).2.1 ∧
      (bisectLoop (solverF newFemur p iv rOpt tsOpt hOpt) n 0 90 0).2.1 ≤ 90 ∧
      0 ≤ (bisectLoop (solverF newFemur p iv rOpt tsOpt hOpt) n 0 90 0).2.2 ∧
      (bisectLoop (solverF newFemur p iv rOpt tsOpt hOpt) n 0 90 0).2.2 ≤ 90) ∧
    (0 ≤ resolveR rOpt iv →
      0 ≤ (calculateFemurLengthUpdate newFemur p iv rOpt tsOpt hOpt).2.2 ∧
      (calculateFemurLengthUpdate newFemur p iv rOpt tsOpt hOpt).2.2 ≤
        90 * resolveR rOpt iv) := by
  constructor
  · intro n
    exact bisectLoop_bounds (solverF newFemur p iv rOpt tsOpt hOpt) n 0 90 0
      (by norm_num) (le_refl _) (by norm_num)
  · intro hR
    have hb := bisectLoop_bounds (solverF newFemur p iv rOpt tsOpt hOpt) 30 0 90 0
      (by norm_num) (le_refl _) (by norm_num)
    have he : (calculateFemurLengthUpdate newFemur p iv rOpt tsOpt hOpt).2.2 =
        resolveR rOpt iv *
          (bisectLoop (solverF newFemur p iv rOpt tsOpt hOpt) 30 0 90 0).2.2 := rfl
    rw [he]
    refine ⟨mul_nonneg hR hb.2.2.2.1, ?_⟩
    rw [mul_comm]
    exact mul_le_mul_of_nonneg_right hb.2.2.2.2 hR

/-- Witness for C9 at snapshot `(1, 1, 3)`, `newFemur = 1`, `feetLength = 1`,
checking the loop state after 3 iterations and the returned angle bounds. -/
theorem C9_bracket_invariant_witness :
    (0 ≤ (bisectLoop (solverF 1 ⟨0, 0, 0, 0, 0, 1⟩ ⟨0, 0, 0, 0, 0, 0, 0⟩
          (some 1) (some 1) (some 3)) 3 0 90 0).1 ∧
      (bisectLoop (solverF 1 ⟨0, 0, 0, 0, 0, 1⟩ ⟨0, 0, 0, 0, 0, 0, 0⟩
          (some 1) (some 1) (some 3)) 3 0 90 0).1 <
        (bisectLoop (solverF 1 ⟨0, 0, 0, 0, 0, 1⟩ ⟨0, 0, 0, 0, 0, 0, 0⟩
          (some 1) (some 1) (some 3)) 3 0 90 0).2.1 ∧
      (bisectLoop (solverF 1 ⟨0, 0, 0, 0, 0, 1⟩ ⟨0, 0, 0, 0, 0, 0, 0⟩
          (some 1) (some 1) (some 3)) 3 0 90 0).2.1 ≤ 90 ∧
      0 ≤ (bisectLoop (solverF 1 ⟨0, 0, 0, 0, 0, 1⟩ ⟨0, 0, 0, 0, 0, 0, 0⟩
          (some 1) (some 1) (some 3)) 3 0 90 0).2.2 ∧
      (bisectLoop (solverF 1 ⟨0, 0, 0, 0, 0, 1⟩ ⟨0, 0, 0, 0, 0, 0, 0⟩
          (some 1) (some 1) (some 3)) 3 0 90 0).2.2 ≤ 90) ∧
    (0 ≤ (calculateFemurLengthUpdate 1 ⟨0, 0, 0, 0, 0, 1⟩ ⟨0, 0, 0, 0, 0, 0, 0⟩
        (some 1) (some 1) (some 3)).2.2 ∧
      (calculateFemurLengthUpdate 1 ⟨0, 0, 0, 0, 0, 1⟩ ⟨0, 0, 0, 0, 0, 0, 0⟩
        (some 1) (some 1) (some 3)).2.2 ≤
        90 * resolveR (some 1) ⟨0, 0, 0, 0, 0, 0, 0⟩) :=
  ⟨(C9_bracket_invariant 1 ⟨0, 0, 0, 0, 0, 1⟩ ⟨0, 0, 0, 0, 0, 0, 0⟩
      (some 1) (some 1) (some 3)).1 3,
    (C9_bracket_invariant 1 ⟨0, 0, 0, 0, 0, 1⟩ ⟨0, 0, 0, 0, 0, 0, 0⟩
      (some 1) (some 1) (some 3)).2 (by simp [resolveR])⟩

/-! ### C5: bisection bracket preservation and convergence -/

/-- C5: when `f(0)` and `f(90)` have opposite signs, the loop's result
either has residual `|f(x_deg)| < 1e-6` (a break at a midpoint), or after
all 30 halvings the final bracket has width exactly `90 / 2^30`, still
carries the sign change, and `x_deg` is one of its endpoints (the midpoint
computed in the 30th iteration); the function's returned `newShinAngle`
is `R_fixed` times that `x_deg`. -/
theorem C5_bisection_convergence (newFemur : ℝ) (p : Parameters) (iv : InitialValues)
    (rOpt tsOpt hOpt : Option ℝ)
    (hsign : solverF newFemur p iv rOpt tsOpt hOpt 0 *
      solverF newFemur p iv rOpt tsOpt hOpt 90 < 0) :
    (|solverF newFemur p iv rOpt tsOpt hOpt
        ((bisectLoop (solverF newFemur p iv rOpt tsOpt hOpt) 30 0 90 0).2.2)| < 1e-6 ∨
      ((bisectLoop (solverF newFemur p iv rOpt tsOpt hOpt) 30 0 90 0).2.1 -
          (bisectLoop (solverF newFemur p iv rOpt tsOpt hOpt) 30 0 90 0).1 =
          90 / 2 ^ 30 ∧
        ((bisectLoop (solverF newFemur p iv rOpt tsOpt hOpt) 30 0 90 0).2.2 =
            (bisectLoop (solverF newFemur p iv rOpt tsOpt hOpt) 30 0 90 0).1 ∨
          (bisectLoop (solverF newFemur p iv rOpt tsOpt hOpt) 30 0 90 0).2.2 =
            (bisectLoop (solverF newFemur p iv rOpt tsOpt hOpt) 30 0 90 0).2.1) ∧
        solverF newFemur p iv rOpt tsOpt hOpt
            ((bisectLoop (solverF newFemur p iv rOpt tsOpt hOpt) 30 0 90 0).1) *
          solverF newFemur p iv rOpt tsOpt hOpt
            ((bisectLoop (solverF newFemur p iv rOpt tsOpt hOpt) 30 0 90 0).2.1) < 0)) ∧
    (calculateFemurLengthUpdate newFemur p iv rOpt tsOpt hOpt).2.2 =
      resolveR rOpt iv *
        (bisectLoop (solverF newFemur p iv rOpt tsOpt hOpt) 30 0 90 0).2.2 := by
  refine ⟨?_, rfl⟩
  have h := bisectLoop_bracket (solverF newFemur p iv rOpt tsOpt hOpt) 29 0 90 0
    (by norm_num) hsign
  have h29 : (29 : ℕ) + 1 = 30 := by norm_num
  rw [h29, sub_zero] at h
  exact h

/-- Witness for C5: at snapshot `(1, 1, 3)`, `newFemur = 1`, `phi = 0`,
`feetLength = 1` the root function has `f(0) = -1/2 < 0 < 3/2 = f(90)`. -/
theorem C5_bisection_convergence_witness :
    solverF 1 ⟨0, 0, 0, 0, 0, 1⟩ ⟨0, 0, 0, 0, 0, 0, 0⟩ (some 1) (some 1) (some 3) 0 *
      solverF 1 ⟨0, 0, 0, 0, 0, 1⟩ ⟨0, 0, 0, 0, 0, 0, 0⟩ (some 1) (some 1) (some 3) 90 < 0 ∧
    (calculateFemurLengthUpdate 1 ⟨0, 0, 0, 0, 0, 1⟩ ⟨0, 0, 0, 0, 0, 0, 0⟩
        (some 1) (some 1) (some 3)).2.2 =
      resolveR (some 1) ⟨0, 0, 0, 0, 0, 0, 0⟩ *
        (bisectLoop (solverF 1 ⟨0, 0, 0, 0, 0, 1⟩ ⟨0, 0, 0, 0, 0, 0, 0⟩
          (some 1) (some 1) (some 3)) 30 0 90 0).2.2 := by
  have hF0 : solverF 1 ⟨0, 0, 0, 0, 0, 1⟩ ⟨0, 0, 0, 0, 0, 0, 0⟩
      (some 1) (some 1) (some 3) 0 = -(1 / 2) := by
    simp [solverF, femurF, newShinOf, newTorsoOf, resolveR, resolveTS, resolveH]
  have e2 : (90 : ℝ) * π / 180 = π / 2 := by ring
  have hF90 : solverF 1 ⟨0, 0, 0, 0, 0, 1⟩ ⟨0, 0, 0, 0, 0, 0, 0⟩
      (some 1) (some 1) (some 3) 90 = 3 / 2 := by
    simp [solverF, femurF, newShinOf, newTorsoOf, resolveR, resolveTS, resolveH, e2,
      Real.sin_pi_div_two]
    norm_num
  have hs : solverF 1 ⟨0, 0, 0, 0, 0, 1⟩ ⟨0, 0, 0, 0, 0, 0, 0⟩
        (some 1) (some 1) (some 3) 0 *
      solverF 1 ⟨0, 0, 0, 0, 0, 1⟩ ⟨0, 0, 0, 0, 0, 0, 0⟩
        (some 1) (some 1) (some 3) 90 < 0 := by
    rw [hF0, hF90]
    norm_num
  exact ⟨hs, (C5_bisection_convergence 1 ⟨0, 0, 0, 0, 0, 1⟩ ⟨0, 0, 0, 0, 0, 0, 0⟩
    (some 1) (some 1) (some 3) hs).2⟩
